import Mathlib

/-!
Verification of the ICS (iCalendar) generation core of the
rds-ws-catalogue repository.

The development shallowly embeds the JavaScript sources:

e source file src/assets/js/ical-generator.js : class ICalGenerator
  (generate, createEvent, buildDescription, wrapInCalendar, formatDate,
  escapeText);
e source file src/scripts/generate-ics.js : the Node copy of the same
  class together with filterWorkshops and the batch file-generation
  script body;
e the add-to-calendar helper source file : class AddToCalendar
  (generateYahooUrl, formatDuration, generateICS).

Modelling conventions.

JavaScript Date values are modelled by the structure JSDate: the epoch
millisecond count together with the local calendar components that the
code reads through getFullYear, getMonth, getDate, getHours, getMinutes
and getSeconds.  The expression new Date(offering.start) is modelled by
storing the JSDate directly in the offering.  The process clock read
new Date() respectively Date.now() becomes an explicit generation-instant
parameter (now : JSDate, nowMs : Nat) of each function that reads it.

JavaScript strings are Lean String values.  The global single-character
regex replace calls of escapeText are modelled as per-character
substitution on the character list.  Template literals spanning several
lines are modelled as the list of their lines rendered with joinLines,
which concatenates with a newline separator exactly as the template
literal and as Array.prototype.join with separator newline do.

Optional or possibly absent fields are Option values; the JavaScript
truthiness tests (x || d, if (x), filter(Boolean)) are modelled by
explicit emptiness tests mirroring each use site.
-/

/-- Model of a JavaScript Date: the epoch millisecond value together with
the local calendar components read by the formatting code.  month0 is the
zero-based month exactly as returned by getMonth(). -/
structure JSDate where
  epochMs : Int
  year : Nat
  month0 : Nat
  day : Nat
  hour : Nat
  minute : Nat
  second : Nat
deriving Repr, DecidableEq

/-- Workshop record, with exactly the fields the modelled code reads. -/
structure Workshop where
  id : String
  title : String
  summary : Option String
  description : Option String
  format_id : String
  area_ids : List String
  audience_ids : List String
  department_ids : List String
  instructor_ids : List String
  is_active : Bool
deriving Repr, DecidableEq

/-- Offering record; start and end hold the instants that the code builds
with new Date(offering.start) and new Date(offering.end). -/
structure Offering where
  id : String
  workshop_id : String
  start : JSDate
  «end» : JSDate
  location : Option String
  registration_url : Option String
  quarter : Option String
  year : Option Nat
deriving Repr, DecidableEq

/-- Lookup entity of the formats collection. -/
structure Format where
  id : String
  label : String
deriving Repr, DecidableEq

/-- Lookup entity of the instructors collection. -/
structure Instructor where
  id : String
  name : String
deriving Repr, DecidableEq

/-- Lookup entity of the areas collection. -/
structure Area where
  id : String
  label : String
deriving Repr, DecidableEq

/-- Lookup entity of the audiences collection. -/
structure Audience where
  id : String
  label : String
deriving Repr, DecidableEq

/-- Lookup entity of the departments collection. -/
structure Department where
  id : String
  label : String
deriving Repr, DecidableEq

/-- The dataset object passed to the ICalGenerator constructor and read
by the batch script. -/
structure DataSet where
  workshops : List Workshop
  offerings : List Offering
  formats : List Format
  instructors : List Instructor
  areas : List Area
  audiences : List Audience
  departments : List Department
deriving Repr, DecidableEq

/-- Provider-agnostic event record consumed by the AddToCalendar class:
title, description, location, start, end and an optional url. -/
structure EventRecord where
  title : String
  description : Option String
  location : Option String
  start : JSDate
  «end» : JSDate
  url : Option String
deriving Repr, DecidableEq

/-- JavaScript String(n) on a natural number. -/
def jsStr (n : Nat) : String := Nat.repr n

/-- JavaScript s.padStart(2, zero): left-pad with the zero digit up to
length two. -/
def padStart2 (s : String) : String :=
  if 2 ≤ s.length then s else String.mk (List.replicate (2 - s.length) '0') ++ s

/-- JavaScript a || b for a possibly absent string a: the fallback b is
used when a is absent or empty, since both are falsy. -/
def jsOrElse (a : Option String) (b : String) : String :=
  match a with
  | some s => if s = "" then b else s
  | none => b

/-- Tail part of a newline join: for each further element a separator
newline followed by the element. -/
def joinTail : List String → String
  | [] => ""
  | x :: t => "\n" ++ x ++ joinTail t

/-- Join a list of lines with newline separators, as a multi-line
template literal and as Array.prototype.join with a newline do. -/
def joinLines : List String → String
  | [] => ""
  | x :: t => x ++ joinTail t

namespace ICalGenerator

/-- One pass of a global single-character regex replace: each occurrence
of the character c is replaced by the character list r. -/
def replaceChar (c : Char) (r : List Char) (s : List Char) : List Char :=
  s.flatMap fun x => if x = c then r else [x]

/-- The escapeText replacement chain on the character list, innermost
applied first: backslash, then semicolon, then comma, then newline, then
carriage-return removal, exactly in the source order. -/
def escapeChars (s : List Char) : List Char :=
  replaceChar '\r' []
    (replaceChar '\n' ['\\', 'n']
      (replaceChar ',' ['\\', ',']
        (replaceChar ';' ['\\', ';']
          (replaceChar '\\' ['\\', '\\'] s))))

/-- ICalGenerator.escapeText on a string: the falsy guard returns the
empty string for empty input, otherwise the replacement chain runs. -/
def escapeText (text : String) : String :=
  if text = "" then "" else String.mk (escapeChars text.data)

/-- escapeText applied to a possibly absent value: an absent argument is
falsy and yields the empty string. -/
def escapeTextOpt : Option String → String
  | none => ""
  | some t => escapeText t

/-- ICalGenerator.formatDate: local components, zero-padded except the
year, joined as YYYYMMDDTHHMMSS with no timezone suffix. -/
def formatDate (d : JSDate) : String :=
  jsStr d.year ++ padStart2 (jsStr (d.month0 + 1)) ++ padStart2 (jsStr d.day)
    ++ "T" ++ padStart2 (jsStr d.hour) ++ padStart2 (jsStr d.minute)
    ++ padStart2 (jsStr d.second)

/-- Model of list.map(resolve).filter(Boolean).join(comma-space): absent
and empty resolutions are dropped, the rest joined. -/
def truthyJoinComma (xs : List (Option String)) : String :=
  String.intercalate (", ")
    (xs.filterMap fun o =>
      match o with
      | some s => if s = "" then none else some s
      | none => none)

/-- JavaScript template interpolation of a possibly absent number: an
absent value renders as the literal text undefined. -/
def jsShowYear : Option Nat → String
  | some n => jsStr n
  | none => "undefined"

/-- ICalGenerator.buildDescription: base text from description with
summary fallback, a separator, then one optional line each for format,
instructors, areas and quarter, then the optional register link. -/
def buildDescription (data : DataSet) (w : Workshop) (o : Offering) : String :=
  let desc0 := jsOrElse w.description (jsOrElse w.summary (""))
  let format := data.formats.find? fun f => f.id == w.format_id
  let instructors := truthyJoinComma
    (w.instructor_ids.map fun i =>
      (data.instructors.find? fun x => x.id == i).map Instructor.name)
  let areas := truthyJoinComma
    (w.area_ids.map fun i =>
      (data.areas.find? fun x => x.id == i).map Area.label)
  desc0 ++ "\n\n---\n"
    ++ (match format with
        | some f => "Format: " ++ f.label ++ "\n"
        | none => "")
    ++ (if instructors = "" then "" else "Instructor(s): " ++ instructors ++ "\n")
    ++ (if areas = "" then "" else "Research Area(s): " ++ areas ++ "\n")
    ++ (match o.quarter with
        | some q => if q = "" then ""
            else "Quarter: " ++ q ++ " " ++ jsShowYear o.year ++ "\n"
        | none => "")
    ++ (match o.registration_url with
        | some u => if u = "" then "" else "\nRegister: " ++ u
        | none => "")

/-- The VEVENT template of createEvent as the list of its lines, factored
over the interpolated values: uid, escaped title, escaped description,
escaped location, raw optional url, and the three formatted instants.
The optional URL continuation keeps its newline glued to the LOCATION
line exactly as in the source interpolation. -/
def veventLines (uid title desc loc url : String) (startD endD now : JSDate) :
    List String :=
  ["BEGIN:VEVENT",
   "UID:" ++ uid ++ "@rds-workshops.ucsb.edu",
   "DTSTAMP:" ++ formatDate now,
   "DTSTART:" ++ formatDate startD,
   "DTEND:" ++ formatDate endD,
   "SUMMARY:" ++ escapeText title,
   "DESCRIPTION:" ++ escapeText desc,
   "LOCATION:" ++ escapeText loc ++ (if url = "" then "" else "\nURL:" ++ url),
   "STATUS:CONFIRMED",
   "SEQUENCE:0",
   "BEGIN:VALARM",
   "TRIGGER:-PT24H",
   "ACTION:DISPLAY",
   "DESCRIPTION:Reminder: " ++ escapeText title ++ " tomorrow",
   "END:VALARM",
   "BEGIN:VALARM",
   "TRIGGER:-PT1H",
   "ACTION:DISPLAY",
   "DESCRIPTION:Reminder: " ++ escapeText title ++ " in 1 hour",
   "END:VALARM",
   "END:VEVENT"]

/-- The per-offering VEVENT lines of createEvent: uid is the offering id,
location falls back to TBA, url falls back to empty. -/
def offeringLines (data : DataSet) (w : Workshop) (o : Offering) (now : JSDate) :
    List String :=
  veventLines o.id w.title (buildDescription data w o)
    (jsOrElse o.location ("TBA")) (jsOrElse o.registration_url (""))
    o.start o.«end» now

/-- ICalGenerator.createEvent: null when the workshop has no offerings,
otherwise the newline join of one VEVENT template per offering. -/
def createEvent (data : DataSet) (w : Workshop) (now : JSDate) : Option String :=
  let offerings := data.offerings.filter fun o => o.workshop_id == w.id
  if offerings.isEmpty then none
  else some (joinLines (offerings.map fun o => joinLines (offeringLines data w o now)))

/-- The fixed VCALENDAR header lines of wrapInCalendar. -/
def calendarHeaderLines : List String :=
  ["BEGIN:VCALENDAR",
   "VERSION:2.0",
   "PRODID:-//UCSB Library//RDS Workshops//EN",
   "CALSCALE:GREGORIAN",
   "METHOD:PUBLISH",
   "X-WR-CALNAME:RDS Workshops",
   "X-WR-TIMEZONE:America/Los_Angeles",
   "X-WR-CALDESC:Research Data Services Workshop Catalogue"]

/-- ICalGenerator.wrapInCalendar: the fixed header, the interpolated
events text as one template line, then the closing line. -/
def wrapInCalendar (events : String) : String :=
  joinLines (calendarHeaderLines ++ [events] ++ ["END:VCALENDAR"])

/-- ICalGenerator.generate: map createEvent over the workshop list, drop
the null results, join with newlines and wrap in the calendar frame. -/
def generate (data : DataSet) (ws : List Workshop) (now : JSDate) : String :=
  wrapInCalendar (joinLines (ws.filterMap fun w => createEvent data w now))

/-- Line-list view of a createEvent block: the concatenated per-offering
VEVENT lines, null when the workshop has no offerings. -/
def eventBlockLines (data : DataSet) (w : Workshop) (now : JSDate) :
    Option (List String) :=
  let offerings := data.offerings.filter fun o => o.workshop_id == w.id
  if offerings.isEmpty then none
  else some ((offerings.map fun o => offeringLines data w o now).flatten)

/-- Line-list view of a generated document.  When no workshop produces a
block, the interpolated empty events text still contributes one empty
line, as in the source template. -/
def generateLines (data : DataSet) (ws : List Workshop) (now : JSDate) :
    List String :=
  calendarHeaderLines
    ++ (let blocks := ws.filterMap fun w => eventBlockLines data w now
        if blocks.isEmpty then [""] else blocks.flatten)
    ++ ["END:VCALENDAR"]

/-- Mask the generation-time field: any line whose first eight characters
read DTSTAMP-colon is replaced by that bare field name. -/
def maskLine (l : String) : String :=
  if l.data.take 8 = ("DTSTAMP:").data then "DTSTAMP:" else l

end ICalGenerator

namespace AddToCalendar

/-- AddToCalendar.formatDuration: hours are the floor of minutes over
sixty, the remainder minutes follow, both zero-padded to two digits.
Math.floor on an integer quotient is Int.fdiv, the JavaScript remainder
operator keeps the sign of the dividend and is Int.tmod. -/
def formatDuration (minutes : Int) : String :=
  padStart2 (Int.repr (Int.fdiv minutes 60)) ++ padStart2 (Int.repr (Int.tmod minutes 60))

/-- The duration computation of generateYahooUrl: the difference of the
two Date values in milliseconds, floor-divided by sixty thousand. -/
def yahooDurationMinutes (event : EventRecord) : Int :=
  Int.fdiv (event.«end».epochMs - event.start.epochMs) 60000

/-- The value of the dur query parameter of the Yahoo Calendar URL built
by generateYahooUrl.  The other parameters pass through URLSearchParams
percent-encoding and the toISOString UTC formatter, which this
development does not model; the dur value is emitted verbatim. -/
def yahooDurParam (event : EventRecord) : String :=
  formatDuration (yahooDurationMinutes event)

/-- AddToCalendar.generateICS as the list of its template lines.  The
helper reads the clock twice: Date.now() for the UID interpolation
(nowMs) and new Date() for the DTSTAMP field (now).  Its local escapeText
and formatDate copies are identical to the ICalGenerator ones, so the
model reuses those definitions. -/
def generateICSLines (event : EventRecord) (nowMs : Nat) (now : JSDate) :
    List String :=
  ["BEGIN:VCALENDAR",
   "VERSION:2.0",
   "PRODID:-//UCSB Library//RDS Workshops//EN",
   "CALSCALE:GREGORIAN",
   "METHOD:PUBLISH",
   "BEGIN:VEVENT",
   "UID:" ++ jsStr nowMs ++ "@rds-workshops.ucsb.edu",
   "DTSTAMP:" ++ ICalGenerator.formatDate now,
   "DTSTART:" ++ ICalGenerator.formatDate event.start,
   "DTEND:" ++ ICalGenerator.formatDate event.«end»,
   "SUMMARY:" ++ ICalGenerator.escapeText event.title,
   "DESCRIPTION:" ++ ICalGenerator.escapeTextOpt event.description,
   "LOCATION:" ++ ICalGenerator.escapeTextOpt event.location
     ++ (match event.url with
         | some u => if u = "" then "" else "\nURL:" ++ u
         | none => ""),
   "STATUS:CONFIRMED",
   "BEGIN:VALARM",
   "TRIGGER:-PT24H",
   "ACTION:DISPLAY",
   "DESCRIPTION:Reminder: " ++ ICalGenerator.escapeText event.title ++ " tomorrow",
   "END:VALARM",
   "BEGIN:VALARM",
   "TRIGGER:-PT1H",
   "ACTION:DISPLAY",
   "DESCRIPTION:Reminder: " ++ ICalGenerator.escapeText event.title ++ " in 1 hour",
   "END:VALARM",
   "END:VEVENT",
   "END:VCALENDAR"]

/-- AddToCalendar.generateICS: the single-event ICS text. -/
def generateICS (event : EventRecord) (nowMs : Nat) (now : JSDate) : String :=
  joinLines (generateICSLines event nowMs now)

end AddToCalendar

namespace ICalGenerator

/-- The ICS Document Generator applied to a document containing exactly
one event record: the VCALENDAR frame of wrapInCalendar around one
createEvent VEVENT template whose interpolated values are the fields of
the record, with the given uid in the UID slot where createEvent places
the offering id. -/
def singleEventDocLines (uid : String) (event : EventRecord) (now : JSDate) :
    List String :=
  calendarHeaderLines
    ++ veventLines uid event.title (jsOrElse event.description (""))
        (jsOrElse event.location ("")) (jsOrElse event.url (""))
        event.start event.«end» now
    ++ ["END:VCALENDAR"]

end ICalGenerator

namespace Batch

/-- Filter argument object of filterWorkshops in the batch script; every
field is optional and absent by default. -/
structure Filters where
  area : Option String := none
  audience : Option String := none
  format : Option String := none
  department : Option String := none
  instructor : Option String := none
deriving Repr, DecidableEq

/-- The predicate body of filterWorkshops: inactive workshops are always
excluded; each present and non-empty (truthy) filter value must match the
corresponding workshop field. -/
def matchesFilters (fl : Filters) (w : Workshop) : Bool :=
  w.is_active
    && (match fl.area with
        | some a => a == "" || w.area_ids.contains a
        | none => true)
    && (match fl.audience with
        | some a => a == "" || w.audience_ids.contains a
        | none => true)
    && (match fl.format with
        | some f => f == "" || w.format_id == f
        | none => true)
    && (match fl.department with
        | some d => d == "" || w.department_ids.contains d
        | none => true)
    && (match fl.instructor with
        | some i => i == "" || w.instructor_ids.contains i
        | none => true)

/-- filterWorkshops of the batch script. -/
def filterWorkshops (data : DataSet) (fl : Filters) : List Workshop :=
  data.workshops.filter (matchesFilters fl)

/-- One forEach block of the batch script: for each id of the lookup
collection, run filterWorkshops on the derived filter and, only when the
result is non-empty, write a file whose name is the prefix, the id and
the ics extension, and whose content lines are the generated document. -/
def batchCategory (pre : String) (ids : List String) (mk : String → Filters)
    (data : DataSet) (now : JSDate) : List (String × List String) :=
  ids.filterMap fun i =>
    let ws := filterWorkshops data (mk i)
    if ws.isEmpty then none
    else some (pre ++ i ++ ".ics", ICalGenerator.generateLines data ws now)

/-- The fixed list of popular filter combinations of the batch script. -/
def comboList : List (Filters × String) :=
  [({ format := some "fmt-online", audience := some "aud-grad" }, "online-grad"),
   ({ format := some "fmt-in-person", audience := some "aud-grad" }, "in-person-grad")]

/-- The named-combination block of the batch script. -/
def batchCombos (data : DataSet) (now : JSDate) : List (String × List String) :=
  comboList.filterMap fun p =>
    let ws := filterWorkshops data p.1
    if ws.isEmpty then none
    else some (p.2 ++ ".ics", ICalGenerator.generateLines data ws now)

/-- The whole batch script body as the list of written files, each as its
name together with its content lines: the unconditional all-workshops
file, then one block per lookup collection, then the combinations. -/
def batchFilesLines (data : DataSet) (now : JSDate) : List (String × List String) :=
  ("all.ics", ICalGenerator.generateLines data (filterWorkshops data {}) now)
    :: (batchCategory ("area-") (data.areas.map Area.id)
          (fun i => { area := some i }) data now
        ++ batchCategory ("audience-") (data.audiences.map Audience.id)
            (fun i => { audience := some i }) data now
        ++ batchCategory ("format-") (data.formats.map Format.id)
            (fun i => { format := some i }) data now
        ++ batchCategory ("department-") (data.departments.map Department.id)
            (fun i => { department := some i }) data now
        ++ batchCombos data now)

/-- The written files with their content rendered to text. -/
def batchFiles (data : DataSet) (now : JSDate) : List (String × String) :=
  (batchFilesLines data now).map fun p => (p.1, joinLines p.2)

end Batch

section JoinLemmas

theorem joinTail_append (a b : List String) :
    joinTail (a ++ b) = joinTail a ++ joinTail b := by
  induction a with
  | nil => simp [joinTail]
  | cons x t ih => simp [joinTail, ih, String.append_assoc]

theorem joinTail_eq_of_ne_nil (a : List String) (h : a ≠ []) :
    joinTail a = "\n" ++ joinLines a := by
  cases a with
  | nil => exact absurd rfl h
  | cons x t => simp [joinTail, joinLines, String.append_assoc]

theorem joinLines_append (a b : List String) (h : a ≠ []) :
    joinLines (a ++ b) = joinLines a ++ joinTail b := by
  cases a with
  | nil => exact absurd rfl h
  | cons x t => simp [joinLines, joinTail_append, String.append_assoc]

theorem joinTail_flatten (L : List (List String)) (h : ∀ b ∈ L, b ≠ []) :
    joinTail (L.map joinLines) = joinTail L.flatten := by
  induction L with
  | nil => rfl
  | cons b L ih =>
    have hb : b ≠ [] := h b (by simp)
    have hL : ∀ x ∈ L, x ≠ [] := fun x hx => h x (by simp [hx])
    simp only [List.map_cons, List.flatten_cons, joinTail, joinTail_append, ih hL,
      joinTail_eq_of_ne_nil b hb, String.append_assoc]

theorem joinLines_map_flatten (L : List (List String)) (h : ∀ b ∈ L, b ≠ []) :
    joinLines (L.map joinLines) = joinLines L.flatten := by
  cases L with
  | nil => rfl
  | cons b L =>
    have hb : b ≠ [] := h b (by simp)
    have hL : ∀ x ∈ L, x ≠ [] := fun x hx => h x (by simp [hx])
    have hbL : joinLines (b ++ L.flatten) = joinLines b ++ joinTail L.flatten :=
      joinLines_append b L.flatten hb
    simp only [List.map_cons, List.flatten_cons, hbL]
    cases b with
    | nil => exact absurd rfl hb
    | cons x t =>
      simp only [joinLines, joinTail_flatten L hL, String.append_assoc]

theorem joinLines_middle (a m b : List String) (ha : a ≠ []) (hm : m ≠ []) :
    joinLines (a ++ [joinLines m] ++ b) = joinLines (a ++ m ++ b) := by
  rw [List.append_assoc, List.append_assoc, joinLines_append a _ ha,
    joinLines_append a _ ha, joinTail_append, joinTail_append,
    joinTail_eq_of_ne_nil m hm]
  simp [joinTail, String.append_assoc]

end JoinLemmas

namespace ICalGenerator

theorem offeringLines_ne_nil (data : DataSet) (w : Workshop) (o : Offering)
    (now : JSDate) : offeringLines data w o now ≠ [] := by
  simp [offeringLines, veventLines]

theorem createEvent_eq_blocks (data : DataSet) (w : Workshop) (now : JSDate) :
    createEvent data w now = (eventBlockLines data w now).map joinLines := by
  unfold createEvent eventBlockLines
  by_cases h : (data.offerings.filter fun o => o.workshop_id == w.id).isEmpty
  · simp [h]
  · simp only [h, if_neg, Bool.false_eq_true, not_false_eq_true, Option.map_some]
    congr 1
    rw [show ((data.offerings.filter fun o => o.workshop_id == w.id).map
        fun o => joinLines (offeringLines data w o now))
      = ((data.offerings.filter fun o => o.workshop_id == w.id).map
          fun o => offeringLines data w o now).map joinLines from by
        rw [List.map_map]; rfl]
    exact joinLines_map_flatten _ (by
      intro b hb
      obtain ⟨o, _, rfl⟩ := List.mem_map.mp hb
      exact offeringLines_ne_nil data w o now)

theorem eventBlock_some_ne_nil (data : DataSet) (w : Workshop) (now : JSDate)
    (b : List String) (h : eventBlockLines data w now = some b) : b ≠ [] := by
  unfold eventBlockLines at h
  by_cases hE : (data.offerings.filter fun o => o.workshop_id == w.id).isEmpty
  · simp [hE] at h
  · simp only [hE, if_neg, Bool.false_eq_true, not_false_eq_true,
      Option.some.injEq] at h
    obtain ⟨o, t, ho⟩ := List.exists_cons_of_ne_nil
      (show (data.offerings.filter fun o => o.workshop_id == w.id) ≠ [] from
        fun hnil => hE (by simp [hnil]))
    rw [← h, ho]
    simp [offeringLines_ne_nil]

theorem generate_eq_joinLines (data : DataSet) (ws : List Workshop) (now : JSDate) :
    generate data ws now = joinLines (generateLines data ws now) := by
  unfold generate wrapInCalendar generateLines
  have hmap : (ws.filterMap fun w => createEvent data w now)
      = (ws.filterMap fun w => eventBlockLines data w now).map joinLines := by
    rw [List.map_filterMap]
    exact List.filterMap_congr fun w _ => createEvent_eq_blocks data w now
  rw [hmap]
  set blocks := ws.filterMap fun w => eventBlockLines data w now with hB
  have hne : ∀ b ∈ blocks, b ≠ [] := by
    intro b hb
    obtain ⟨w, _, hw⟩ := List.mem_filterMap.mp hb
    exact eventBlock_some_ne_nil data w now b hw
  by_cases h : blocks.isEmpty
  · rw [List.isEmpty_iff.mp h]
    simp [joinLines]
  · have hbne : blocks ≠ [] := by simpa [List.isEmpty_iff] using h
    rw [joinLines_map_flatten blocks hne, if_neg (by simpa using h)]
    have hfne : blocks.flatten ≠ [] := by
      obtain ⟨b, t, hb⟩ := List.exists_cons_of_ne_nil hbne
      have : b ≠ [] := hne b (by rw [hb]; simp)
      rw [hb]
      simp [this]
    exact joinLines_middle calendarHeaderLines blocks.flatten ["END:VCALENDAR"]
      (by simp [calendarHeaderLines]) hfne

end ICalGenerator

namespace ICalGenerator

theorem maskLine_dtstamp (s : String) : maskLine ("DTSTAMP:" ++ s) = "DTSTAMP:" := by
  have h : ("DTSTAMP:" ++ s).data.take 8 = ("DTSTAMP:").data := by
    rw [String.data_append]; rfl
  simp [maskLine, h]

theorem offeringLines_mask (data : DataSet) (w : Workshop) (o : Offering)
    (t1 t2 : JSDate) :
    (offeringLines data w o t1).map maskLine
      = (offeringLines data w o t2).map maskLine := by
  simp [offeringLines, veventLines, maskLine_dtstamp]

theorem eventBlock_mask (data : DataSet) (w : Workshop) (t1 t2 : JSDate) :
    (eventBlockLines data w t1).map (List.map maskLine)
      = (eventBlockLines data w t2).map (List.map maskLine) := by
  unfold eventBlockLines
  by_cases h : (data.offerings.filter fun o => o.workshop_id == w.id).isEmpty
  · simp [h]
  · rw [if_neg h, if_neg h]
    have key : List.map maskLine
        (((data.offerings.filter fun o => o.workshop_id == w.id).map
          fun o => offeringLines data w o t1).flatten)
        = List.map maskLine
          (((data.offerings.filter fun o => o.workshop_id == w.id).map
            fun o => offeringLines data w o t2).flatten) := by
      rw [List.map_flatten, List.map_flatten, List.map_map, List.map_map]
      exact congrArg List.flatten
        (List.map_congr_left fun o _ => offeringLines_mask data w o t1 t2)
    exact congrArg some key

theorem blocks_mask (data : DataSet) (ws : List Workshop) (t1 t2 : JSDate) :
    ((ws.filterMap fun w => eventBlockLines data w t1).map (List.map maskLine))
      = ((ws.filterMap fun w => eventBlockLines data w t2).map (List.map maskLine)) := by
  induction ws with
  | nil => rfl
  | cons w ws ih =>
    rw [List.filterMap_cons, List.filterMap_cons]
    have h := eventBlock_mask data w t1 t2
    cases h1 : eventBlockLines data w t1 with
    | none =>
      cases h2 : eventBlockLines data w t2 with
      | none => exact ih
      | some b => rw [h1, h2] at h; exact Option.noConfusion h
    | some b =>
      cases h2 : eventBlockLines data w t2 with
      | none => rw [h1, h2] at h; exact Option.noConfusion h
      | some b2 =>
        rw [h1, h2] at h
        have hbb : List.map maskLine b = List.map maskLine b2 :=
          Option.some.inj h
        simp [hbb, ih]

theorem generateLines_mask (data : DataSet) (ws : List Workshop) (t1 t2 : JSDate) :
    (generateLines data ws t1).map maskLine
      = (generateLines data ws t2).map maskLine := by
  unfold generateLines
  rw [List.map_append, List.map_append, List.map_append, List.map_append]
  congr 1
  congr 1
  have hb := blocks_mask data ws t1 t2
  set b1 := ws.filterMap fun w => eventBlockLines data w t1 with hB1
  set b2 := ws.filterMap fun w => eventBlockLines data w t2 with hB2
  have hemp : b1.isEmpty = b2.isEmpty := by
    cases hc1 : b1 with
    | nil => cases hc2 : b2 with
      | nil => rfl
      | cons x t => rw [hc1, hc2] at hb; simp at hb
    | cons x t => cases hc2 : b2 with
      | nil => rw [hc1, hc2] at hb; simp at hb
      | cons y s => rfl
  by_cases h : b1.isEmpty
  · rw [if_pos h, if_pos (hemp ▸ h)]
  · rw [if_neg h, if_neg (hemp ▸ h)]
    rw [List.map_flatten, List.map_flatten, hb]

theorem escapeText_jsOrElse (o : Option String) :
    escapeText (jsOrElse o ("")) = escapeTextOpt o := by
  cases o with
  | none => rfl
  | some t =>
    by_cases h : t = "" <;> simp [jsOrElse, escapeTextOpt, escapeText, h]

theorem urlPart_jsOrElse (o : Option String) :
    (if jsOrElse o ("") = "" then "" else "\nURL:" ++ jsOrElse o ("")) =
      (match o with
       | some u => if u = "" then "" else "\nURL:" ++ u
       | none => "") := by
  cases o with
  | none => simp [jsOrElse]
  | some u => by_cases h : u = "" <;> simp [jsOrElse, h]

end ICalGenerator

section Fixtures

/-- Concrete instant used by witnesses: 2025-03-10 10:00:00 local. -/
def sampleDate : JSDate :=
  { epochMs := 1741600800000, year := 2025, month0 := 2, day := 10,
    hour := 10, minute := 0, second := 0 }

/-- Concrete instant used by witnesses: 2025-03-10 11:00:00 local. -/
def sampleDateEnd : JSDate :=
  { epochMs := 1741604400000, year := 2025, month0 := 2, day := 10,
    hour := 11, minute := 0, second := 0 }

/-- Concrete offering used by witnesses. -/
def sampleOffering : Offering :=
  { id := "off-1", workshop_id := "ws-1", start := sampleDate,
    «end» := sampleDateEnd, location := none,
    registration_url := some "https://example.edu/reg",
    quarter := some "Spring", year := none }

/-- Concrete workshop used by witnesses. -/
def sampleWorkshop : Workshop :=
  { id := "ws-1", title := "Intro to Python",
    summary := some "Learn Python basics", description := none,
    format_id := "fmt-online", area_ids := ["area-1"],
    audience_ids := ["aud-grad"], department_ids := [],
    instructor_ids := ["inst-1"], is_active := true }

/-- Concrete dataset used by witnesses. -/
def sampleData : DataSet :=
  { workshops := [sampleWorkshop], offerings := [sampleOffering],
    formats := [{ id := "fmt-online", label := "Online" }],
    instructors := [{ id := "inst-1", name := "Ada" }],
    areas := [{ id := "area-1", label := "Data Science" }],
    audiences := [{ id := "aud-grad", label := "Graduate" }],
    departments := [] }

/-- Concrete event record used by witnesses and counterexamples. -/
def sampleEvent : EventRecord :=
  { title := "Intro to Python", description := some "Learn Python basics",
    location := none, start := sampleDate, «end» := sampleDateEnd,
    url := some "https://example.edu/reg" }

end Fixtures

namespace ICalGenerator

theorem replaceChar_id (c : Char) (r : List Char) (s : List Char)
    (h : ∀ x ∈ s, x ≠ c) : replaceChar c r s = s := by
  induction s with
  | nil => rfl
  | cons x t ih =>
    have hx : x ≠ c := h x (by simp)
    have ht := ih fun y hy => h y (by simp [hy])
    simp only [replaceChar] at ht ⊢
    simp [List.flatMap_cons, if_neg hx, ht]

end ICalGenerator

/-- Claim C4: escapeText applies the replacement chain in the source
order, so that the two spec examples hold literally; it is the identity on
strings containing none of backslash, semicolon, comma, newline, carriage
return; and empty or absent input yields the empty string, never the
literal text null or undefined. -/
theorem claim_C4_escape :
    ICalGenerator.escapeText ("a;b,c\n") = "a\\;b\\,c\\n"
    ∧ ICalGenerator.escapeText ("back\\slash") = "back\\\\slash"
    ∧ (∀ s : String,
        (∀ c ∈ s.data, c ≠ '\\' ∧ c ≠ ';' ∧ c ≠ ',' ∧ c ≠ '\n' ∧ c ≠ '\r') →
          ICalGenerator.escapeText s = s)
    ∧ ICalGenerator.escapeTextOpt none = ""
    ∧ ICalGenerator.escapeText ("") = "" := by
  refine ⟨by decide, by decide, ?_, rfl, rfl⟩
  intro s h
  by_cases he : s = ""
  · simp [ICalGenerator.escapeText, he]
  · rw [ICalGenerator.escapeText, if_neg he]
    rw [ICalGenerator.escapeChars,
      ICalGenerator.replaceChar_id '\\' _ _ (fun x hx => (h x hx).1),
      ICalGenerator.replaceChar_id ';' _ _ (fun x hx => (h x hx).2.1),
      ICalGenerator.replaceChar_id ',' _ _ (fun x hx => (h x hx).2.2.1),
      ICalGenerator.replaceChar_id '\n' _ _ (fun x hx => (h x hx).2.2.2.1),
      ICalGenerator.replaceChar_id '\r' _ _ (fun x hx => (h x hx).2.2.2.2)]

/-- Witness for claim C4: the no-op conjunct applied at a concrete
special-character-free string. -/
theorem claim_C4_witness : ICalGenerator.escapeText ("plain text") = "plain text" :=
  claim_C4_escape.2.2.1 ("plain text") (by decide)

/-- Claim C5: for a workshop with exactly one offering, createEvent emits
precisely these lines in this order: UID, DTSTAMP, DTSTART, DTEND,
SUMMARY (escaped title), DESCRIPTION (escaped built description),
LOCATION (escaped, TBA fallback) with the URL line only when the record
has a registration url and with the url unescaped, then STATUS:CONFIRMED
and SEQUENCE:0, then the mandatory 24-hour and 1-hour VALARM blocks with
their reminder texts. -/
theorem claim_C5_vevent_fields (data : DataSet) (w : Workshop) (o : Offering)
    (now : JSDate)
    (h : data.offerings.filter (fun x => x.workshop_id == w.id) = [o]) :
    ICalGenerator.createEvent data w now = some (joinLines
      ["BEGIN:VEVENT",
       "UID:" ++ o.id ++ "@rds-workshops.ucsb.edu",
       "DTSTAMP:" ++ ICalGenerator.formatDate now,
       "DTSTART:" ++ ICalGenerator.formatDate o.start,
       "DTEND:" ++ ICalGenerator.formatDate o.«end»,
       "SUMMARY:" ++ ICalGenerator.escapeText w.title,
       "DESCRIPTION:" ++ ICalGenerator.escapeText (ICalGenerator.buildDescription data w o),
       "LOCATION:" ++ ICalGenerator.escapeText (jsOrElse o.location ("TBA"))
         ++ (if jsOrElse o.registration_url ("") = "" then ""
             else "\nURL:" ++ jsOrElse o.registration_url ("")),
       "STATUS:CONFIRMED",
       "SEQUENCE:0",
       "BEGIN:VALARM",
       "TRIGGER:-PT24H",
       "ACTION:DISPLAY",
       "DESCRIPTION:Reminder: " ++ ICalGenerator.escapeText w.title ++ " tomorrow",
       "END:VALARM",
       "BEGIN:VALARM",
       "TRIGGER:-PT1H",
       "ACTION:DISPLAY",
       "DESCRIPTION:Reminder: " ++ ICalGenerator.escapeText w.title ++ " in 1 hour",
       "END:VALARM",
       "END:VEVENT"]) := by
  unfold ICalGenerator.createEvent
  simp only [h]
  simp [joinLines, joinTail, ICalGenerator.offeringLines, ICalGenerator.veventLines]

/-- Witness for claim C5 at the sample fixtures. -/
theorem claim_C5_witness :
    ICalGenerator.createEvent sampleData sampleWorkshop sampleDate ≠ none := by
  rw [claim_C5_vevent_fields sampleData sampleWorkshop sampleOffering sampleDate
    (by decide)]
  simp

/-- Claim C2: the generated document is a pure function of the dataset,
the input workshop list and the generation instant (so a fixed instant
and fixed inputs give byte-identical output); it is the newline join of
its line list, whose event blocks come from the input list in input
order via createEvent; and two generations at different instants agree
line for line after masking the DTSTAMP lines. -/
theorem claim_C2_determinism (data : DataSet) (ws : List Workshop)
    (t1 t2 : JSDate) :
    ICalGenerator.generate data ws t1 = joinLines (ICalGenerator.generateLines data ws t1)
    ∧ ICalGenerator.generate data ws t1
        = ICalGenerator.wrapInCalendar
            (joinLines (ws.filterMap fun w => ICalGenerator.createEvent data w t1))
    ∧ (ICalGenerator.generateLines data ws t1).map ICalGenerator.maskLine
        = (ICalGenerator.generateLines data ws t2).map ICalGenerator.maskLine :=
  ⟨ICalGenerator.generate_eq_joinLines data ws t1, rfl,
   ICalGenerator.generateLines_mask data ws t1 t2⟩

/-- Claim C7: generating from an empty workshop list yields the fixed
VCALENDAR frame with zero VEVENT blocks and is total; and a workshop
with zero offerings contributes nothing to the document. -/
theorem claim_C7_empty_input (data : DataSet) (w : Workshop)
    (ws : List Workshop) (now : JSDate) :
    (ICalGenerator.generate data [] now
        = joinLines (ICalGenerator.calendarHeaderLines ++ [""] ++ ["END:VCALENDAR"])
      ∧ (ICalGenerator.generateLines data [] now).head? = some ("BEGIN:VCALENDAR")
      ∧ (ICalGenerator.generateLines data [] now).getLast? = some ("END:VCALENDAR")
      ∧ (ICalGenerator.generateLines data [] now).count ("BEGIN:VEVENT") = 0)
    ∧ ((data.offerings.filter fun o => o.workshop_id == w.id).isEmpty →
        ICalGenerator.generate data (w :: ws) now = ICalGenerator.generate data ws now) := by
  constructor
  · refine ⟨rfl, rfl, rfl, rfl⟩
  · intro h
    have hc : ICalGenerator.createEvent data w now = none := by
      unfold ICalGenerator.createEvent
      rw [if_pos h]
    unfold ICalGenerator.generate
    rw [List.filterMap_cons, hc]

/-- Witness for claim C7: a workshop without offerings is dropped from a
concrete generation. -/
theorem claim_C7_witness :
    ICalGenerator.generate
        { workshops := [], offerings := [], formats := [], instructors := [],
          areas := [], audiences := [], departments := [] }
        [sampleWorkshop] sampleDate
      = ICalGenerator.generate
          { workshops := [], offerings := [], formats := [], instructors := [],
            areas := [], audiences := [], departments := [] }
          [] sampleDate :=
  (claim_C7_empty_input
    { workshops := [], offerings := [], formats := [], instructors := [],
      areas := [], audiences := [], departments := [] }
    sampleWorkshop [] sampleDate).2 (by decide)

namespace ICalGenerator

theorem truthyJoinComma_append_none (xs : List (Option String)) :
    truthyJoinComma (xs ++ [none]) = truthyJoinComma xs := by
  simp [truthyJoinComma]

end ICalGenerator

/-- Claim C6: buildDescription is total, and unresolved lookups degrade
silently.  A format id absent from the formats collection behaves exactly
as an empty formats collection, so the format line is omitted; an
instructor or area id absent from its lookup collection can be appended
to the workshop without changing the built description, so unresolved
ids are dropped from the comma-joined lists. -/
theorem claim_C6_missing_lookups (data : DataSet) (w : Workshop)
    (o : Offering) (bad : String) :
    ((data.formats.find? fun f => f.id == w.format_id) = none →
      ICalGenerator.buildDescription data w o
        = ICalGenerator.buildDescription
            { data with formats := [] } w o)
    ∧ ((data.instructors.find? fun i => i.id == bad) = none →
      ICalGenerator.buildDescription data
          { w with instructor_ids := w.instructor_ids ++ [bad] } o
        = ICalGenerator.buildDescription data w o)
    ∧ ((data.areas.find? fun a => a.id == bad) = none →
      ICalGenerator.buildDescription data
          { w with area_ids := w.area_ids ++ [bad] } o
        = ICalGenerator.buildDescription data w o) := by
  refine ⟨fun h => ?_, fun h => ?_, fun h => ?_⟩
  · simp [ICalGenerator.buildDescription, h]
  · simp [ICalGenerator.buildDescription, List.map_append, h,
      ICalGenerator.truthyJoinComma_append_none]
  · simp [ICalGenerator.buildDescription, List.map_append, h,
      ICalGenerator.truthyJoinComma_append_none]

/-- Witness for claim C6: at the sample fixtures an unresolved format id
and an unresolved instructor id are tolerated. -/
theorem claim_C6_witness :
    ICalGenerator.buildDescription
        { sampleData with formats := [{ id := "fmt-other", label := "Other" }] }
        sampleWorkshop sampleOffering
      = ICalGenerator.buildDescription
          { sampleData with formats := [] } sampleWorkshop sampleOffering
    ∧ ICalGenerator.buildDescription sampleData
        { sampleWorkshop with
            instructor_ids := sampleWorkshop.instructor_ids ++ ["inst-missing"] }
        sampleOffering
      = ICalGenerator.buildDescription sampleData sampleWorkshop sampleOffering :=
  ⟨(claim_C6_missing_lookups
      { sampleData with formats := [{ id := "fmt-other", label := "Other" }] }
      sampleWorkshop sampleOffering ("inst-missing")).1 (by decide),
   (claim_C6_missing_lookups sampleData sampleWorkshop sampleOffering
      ("inst-missing")).2.1 (by decide)⟩

/-- Claim C10: when an offering has a quarter but no year, the built
description contains the line Quarter followed by the quarter value and
the literal text undefined, coming from JavaScript template
interpolation of the absent year field. -/
theorem claim_C10_quarter_undefined (data : DataSet) (w : Workshop)
    (o : Offering) (q : String) (h1 : o.quarter = some q) (h2 : q ≠ "")
    (h3 : o.year = none) :
    ∃ a b : String, ICalGenerator.buildDescription data w o
      = a ++ ("Quarter: " ++ q ++ " " ++ "undefined" ++ "\n") ++ b := by
  exact ⟨_, _, by
    simp only [ICalGenerator.buildDescription, h1, h3, ICalGenerator.jsShowYear,
      if_neg h2]
    rfl⟩

/-- Witness for claim C10 at a concrete offering with a quarter and no
year. -/
theorem claim_C10_witness :
    ∃ a b : String,
      ICalGenerator.buildDescription sampleData sampleWorkshop sampleOffering
        = a ++ ("Quarter: " ++ "Spring" ++ " " ++ "undefined" ++ "\n") ++ b :=
  claim_C10_quarter_undefined sampleData sampleWorkshop sampleOffering
    ("Spring") rfl (by decide) rfl

/-- Claim C8: for an event whose end is not before its start, the dur
value of the Yahoo Calendar URL is the floor of the millisecond
difference over sixty thousand, rendered as the zero-padded hour count
followed by the zero-padded remainder minutes. -/
theorem claim_C8_yahoo_duration (ev : EventRecord)
    (h : ev.start.epochMs ≤ ev.«end».epochMs) :
    AddToCalendar.yahooDurParam ev
      = padStart2 (jsStr (((ev.«end».epochMs - ev.start.epochMs).toNat / 60000) / 60))
        ++ padStart2 (jsStr (((ev.«end».epochMs - ev.start.epochMs).toNat / 60000) % 60)) := by
  unfold AddToCalendar.yahooDurParam AddToCalendar.yahooDurationMinutes
    AddToCalendar.formatDuration
  have hk : ev.«end».epochMs - ev.start.epochMs
      = ((ev.«end».epochMs - ev.start.epochMs).toNat : Int) :=
    (Int.toNat_of_nonneg (sub_nonneg.mpr h)).symm
  rw [hk]
  set k := (ev.«end».epochMs - ev.start.epochMs).toNat with hkdef
  rw [show ((60000 : Int)) = ((60000 : Nat) : Int) from rfl,
    ← Int.ofNat_fdiv k 60000,
    show ((60 : Int)) = ((60 : Nat) : Int) from rfl,
    ← Int.ofNat_fdiv (k / 60000) 60]
  rfl

/-- Witness for claim C8: the three spec examples, a 90 minute, a 45
minute and a 0 minute event. -/
theorem claim_C8_witness :
    AddToCalendar.yahooDurParam
        { sampleEvent with
            start := { sampleDate with epochMs := 0 },
            «end» := { sampleDate with epochMs := 5400000 } } = "0130"
    ∧ AddToCalendar.yahooDurParam
        { sampleEvent with
            start := { sampleDate with epochMs := 0 },
            «end» := { sampleDate with epochMs := 2700000 } } = "0045"
    ∧ AddToCalendar.yahooDurParam
        { sampleEvent with
            start := { sampleDate with epochMs := 0 },
            «end» := { sampleDate with epochMs := 0 } } = "0000" :=
  ⟨(claim_C8_yahoo_duration _ (by decide)).trans (by decide),
   (claim_C8_yahoo_duration _ (by decide)).trans (by decide),
   (claim_C8_yahoo_duration _ (by decide)).trans (by decide)⟩

/-- Claim C1, shown failing on the code: the single-event ICS of the
calendar link generator derives its UID from the generation instant
(Date.now()), not from the offering identity, so two generations of the
same event at different instants disagree even after the DTSTAMP lines
are masked; the document generator path, by contrast, keeps its
offering-id UID across instants. -/
theorem claim_C1_uid_from_clock :
    ((AddToCalendar.generateICSLines sampleEvent 1000 sampleDate)[6]?
        = some ("UID:1000@rds-workshops.ucsb.edu"))
    ∧ ((AddToCalendar.generateICSLines sampleEvent 2000 sampleDate)[6]?
        = some ("UID:2000@rds-workshops.ucsb.edu"))
    ∧ (AddToCalendar.generateICSLines sampleEvent 1000 sampleDate).map
          ICalGenerator.maskLine
        ≠ (AddToCalendar.generateICSLines sampleEvent 2000 sampleDate).map
            ICalGenerator.maskLine
    ∧ ((ICalGenerator.offeringLines sampleData sampleWorkshop sampleOffering
          sampleDate)[1]? = some ("UID:off-1@rds-workshops.ucsb.edu"))
    ∧ ((ICalGenerator.offeringLines sampleData sampleWorkshop sampleOffering
          sampleDateEnd)[1]? = some ("UID:off-1@rds-workshops.ucsb.edu")) := by
  refine ⟨rfl, rfl, ?_, rfl, rfl⟩
  decide

/-- Counterexample to claim C3: at a concrete event record, even after
masking the DTSTAMP lines and granting the offering-id UID, the
single-event ICS of the calendar link generator is not the document
generator output for that one event; in particular the document
generator emits SEQUENCE:0 and the link generator does not. -/
theorem claim_C3_counterexample :
    ((AddToCalendar.generateICSLines sampleEvent 1000 sampleDate).map
        ICalGenerator.maskLine
      ≠ (ICalGenerator.singleEventDocLines ("off-1") sampleEvent sampleDate).map
          ICalGenerator.maskLine)
    ∧ ("SEQUENCE:0" ∈ ICalGenerator.singleEventDocLines ("off-1") sampleEvent sampleDate)
    ∧ ("SEQUENCE:0" ∉ AddToCalendar.generateICSLines sampleEvent 1000 sampleDate) := by
  refine ⟨?_, by decide, by decide⟩
  decide

/-- Claim C3 as amended: for every event record and generation instant,
the single-event ICS of the calendar link generator equals the document
generator single-event document after deleting the SEQUENCE:0 line and
the three X-WR calendar header lines, provided the document UID slot is
given the generation-instant value that the link generator uses in place
of an offering id; all remaining fields agree in content and order,
DTSTAMP included, since both read the same clock. -/
theorem claim_C3_amended (ev : EventRecord) (ms : Nat) (now : JSDate) :
    AddToCalendar.generateICSLines ev ms now
      = ((((ICalGenerator.singleEventDocLines (jsStr ms) ev now).eraseIdx
            17).eraseIdx 7).eraseIdx 6).eraseIdx 5 := by
  simp only [AddToCalendar.generateICSLines, ICalGenerator.singleEventDocLines,
    ICalGenerator.veventLines, ICalGenerator.calendarHeaderLines,
    ICalGenerator.escapeText_jsOrElse, ICalGenerator.urlPart_jsOrElse,
    List.cons_append, List.nil_append]
  rfl

namespace Batch

theorem entry_mem {α : Type} (l : List α) (g : α → Filters) (name : α → String)
    (data : DataSet) (now : JSDate) (x : α) (hx : x ∈ l)
    (hne : ¬(filterWorkshops data (g x)).isEmpty = true) :
    name x ∈ ((l.filterMap fun y =>
        let ws := filterWorkshops data (g y)
        if ws.isEmpty then none
        else some (name y, ICalGenerator.generateLines data ws now)).map Prod.fst) := by
  refine List.mem_map.mpr
    ⟨(name x, ICalGenerator.generateLines data (filterWorkshops data (g x)) now),
     ?_, rfl⟩
  refine List.mem_filterMap.mpr ⟨x, hx, ?_⟩
  simp only [if_neg hne]

theorem entry_mask {α : Type} (l : List α) (g : α → Filters) (name : α → String)
    (data : DataSet) (t1 t2 : JSDate) :
    ((l.filterMap fun y =>
        let ws := filterWorkshops data (g y)
        if ws.isEmpty then none
        else some (name y, ICalGenerator.generateLines data ws t1)).map
      fun p => (p.1, p.2.map ICalGenerator.maskLine))
    = ((l.filterMap fun y =>
        let ws := filterWorkshops data (g y)
        if ws.isEmpty then none
        else some (name y, ICalGenerator.generateLines data ws t2)).map
      fun p => (p.1, p.2.map ICalGenerator.maskLine)) := by
  induction l with
  | nil => rfl
  | cons x t ih =>
    rw [List.filterMap_cons, List.filterMap_cons]
    by_cases h : (filterWorkshops data (g x)).isEmpty
    · simp only [h, if_pos]
      exact ih
    · simp only [h, if_neg, Bool.false_eq_true, not_false_eq_true, List.map_cons]
      rw [ih]
      rw [ICalGenerator.generateLines_mask data (filterWorkshops data (g x)) t1 t2]

theorem batchFiles_names (data : DataSet) (now : JSDate) :
    (batchFiles data now).map Prod.fst = (batchFilesLines data now).map Prod.fst := by
  rw [batchFiles, List.map_map]
  rfl

end Batch

/-- Dataset with one research area and no workshops, on which the batch
script writes no per-area file. -/
def areaOnlyData : DataSet :=
  { workshops := [], offerings := [], formats := [], instructors := [],
    areas := [{ id := "a1", label := "Area One" }], audiences := [],
    departments := [] }

/-- Counterexample to claim C9: the batch script skips every filter whose
workshop selection is empty, so a dataset with a research area but no
matching workshop gets no per-area file at all, against the claim of one
file per research area. -/
theorem claim_C9_counterexample :
    (({ id := "a1", label := "Area One" } : Area) ∈ areaOnlyData.areas)
    ∧ ("area-" ++ "a1" ++ ".ics")
        ∉ (Batch.batchFiles areaOnlyData sampleDate).map Prod.fst := by
  refine ⟨by decide, ?_⟩
  decide

/-- Claim C9 as amended: the batch entry point always writes the
all-workshops file, and writes one file per research area, audience,
format, department and named combination whose filter selects at least
one active workshop, with the filename derived from the filter identity;
and for a fixed dataset the whole file list is deterministic: the
filenames are identical across generation instants and the contents
agree after masking the DTSTAMP lines. -/
theorem claim_C9_amended (data : DataSet) (t1 t2 : JSDate) :
    ("all.ics" ∈ (Batch.batchFiles data t1).map Prod.fst)
    ∧ (∀ a ∈ data.areas,
        ¬(Batch.filterWorkshops data { area := some a.id }).isEmpty = true →
          ("area-" ++ a.id ++ ".ics") ∈ (Batch.batchFiles data t1).map Prod.fst)
    ∧ (∀ a ∈ data.audiences,
        ¬(Batch.filterWorkshops data { audience := some a.id }).isEmpty = true →
          ("audience-" ++ a.id ++ ".ics") ∈ (Batch.batchFiles data t1).map Prod.fst)
    ∧ (∀ f ∈ data.formats,
        ¬(Batch.filterWorkshops data { format := some f.id }).isEmpty = true →
          ("format-" ++ f.id ++ ".ics") ∈ (Batch.batchFiles data t1).map Prod.fst)
    ∧ (∀ d ∈ data.departments,
        ¬(Batch.filterWorkshops data { department := some d.id }).isEmpty = true →
          ("department-" ++ d.id ++ ".ics") ∈ (Batch.batchFiles data t1).map Prod.fst)
    ∧ (∀ p ∈ Batch.comboList,
        ¬(Batch.filterWorkshops data p.1).isEmpty = true →
          (p.2 ++ ".ics") ∈ (Batch.batchFiles data t1).map Prod.fst)
    ∧ ((Batch.batchFilesLines data t1).map
          (fun p => (p.1, p.2.map ICalGenerator.maskLine))
        = (Batch.batchFilesLines data t2).map
            (fun p => (p.1, p.2.map ICalGenerator.maskLine)))
    ∧ ((Batch.batchFiles data t1).map Prod.fst
        = (Batch.batchFiles data t2).map Prod.fst) := by
  have hmask : (Batch.batchFilesLines data t1).map
        (fun p => (p.1, p.2.map ICalGenerator.maskLine))
      = (Batch.batchFilesLines data t2).map
          (fun p => (p.1, p.2.map ICalGenerator.maskLine)) := by
    unfold Batch.batchFilesLines
    simp only [List.map_cons, List.map_append]
    congr 1
    · exact congrArg _
        (ICalGenerator.generateLines_mask data (Batch.filterWorkshops data {}) t1 t2)
    · congr 1
      · congr 1
        · congr 1
          · congr 1
            · exact Batch.entry_mask _ _ _ data t1 t2
            · exact Batch.entry_mask _ _ _ data t1 t2
          · exact Batch.entry_mask _ _ _ data t1 t2
        · exact Batch.entry_mask _ _ _ data t1 t2
      · exact Batch.entry_mask Batch.comboList (fun p => p.1)
          (fun p => p.2 ++ ".ics") data t1 t2
  refine ⟨?_, ?_, ?_, ?_, ?_, ?_, hmask, ?_⟩
  · rw [Batch.batchFiles_names]
    unfold Batch.batchFilesLines
    simp only [List.map_cons, List.map_append, List.mem_cons, List.mem_append]
    exact Or.inl trivial
  · intro a ha hne
    rw [Batch.batchFiles_names]
    unfold Batch.batchFilesLines Batch.batchCategory
    simp only [List.map_cons, List.map_append, List.mem_cons, List.mem_append]
    exact Or.inr (Or.inl (Or.inl (Or.inl (Or.inl
      (Batch.entry_mem (data.areas.map Area.id)
        (fun i => ({ area := some i } : Batch.Filters))
        (fun i => "area-" ++ i ++ ".ics") data t1 a.id
        (List.mem_map.mpr ⟨a, ha, rfl⟩) hne)))))
  · intro a ha hne
    rw [Batch.batchFiles_names]
    unfold Batch.batchFilesLines Batch.batchCategory
    simp only [List.map_cons, List.map_append, List.mem_cons, List.mem_append]
    exact Or.inr (Or.inl (Or.inl (Or.inl (Or.inr
      (Batch.entry_mem (data.audiences.map Audience.id)
        (fun i => ({ audience := some i } : Batch.Filters))
        (fun i => "audience-" ++ i ++ ".ics") data t1 a.id
        (List.mem_map.mpr ⟨a, ha, rfl⟩) hne)))))
  · intro f hf hne
    rw [Batch.batchFiles_names]
    unfold Batch.batchFilesLines Batch.batchCategory
    simp only [List.map_cons, List.map_append, List.mem_cons, List.mem_append]
    exact Or.inr (Or.inl (Or.inl (Or.inr
      (Batch.entry_mem (data.formats.map Format.id)
        (fun i => ({ format := some i } : Batch.Filters))
        (fun i => "format-" ++ i ++ ".ics") data t1 f.id
        (List.mem_map.mpr ⟨f, hf, rfl⟩) hne))))
  · intro d hd hne
    rw [Batch.batchFiles_names]
    unfold Batch.batchFilesLines Batch.batchCategory
    simp only [List.map_cons, List.map_append, List.mem_cons, List.mem_append]
    exact Or.inr (Or.inl (Or.inr
      (Batch.entry_mem (data.departments.map Department.id)
        (fun i => ({ department := some i } : Batch.Filters))
        (fun i => "department-" ++ i ++ ".ics") data t1 d.id
        (List.mem_map.mpr ⟨d, hd, rfl⟩) hne)))
  · intro p hp hne
    rw [Batch.batchFiles_names]
    unfold Batch.batchFilesLines Batch.batchCombos
    simp only [List.map_cons, List.map_append, List.mem_cons, List.mem_append]
    exact Or.inr (Or.inr
      (Batch.entry_mem Batch.comboList (fun q => q.1)
        (fun q => q.2 ++ ".ics") data t1 p hp hne))
  · rw [Batch.batchFiles_names, Batch.batchFiles_names]
    have h := congrArg (List.map Prod.fst) hmask
    simpa [List.map_map, Function.comp] using h

/-- Witness for claim C9: on the sample dataset the area file for the
only area is written. -/
theorem claim_C9_witness :
    ("area-" ++ "area-1" ++ ".ics")
      ∈ (Batch.batchFiles sampleData sampleDate).map Prod.fst :=
  (claim_C9_amended sampleData sampleDate sampleDate).2.1
    { id := "area-1", label := "Data Science" } (by decide) (by decide)
